import Mathlib

/-!
Verification model of the realtime chatbot service (`app.py`): the intent
classifier `detect_intent`, the handler table `INTENT_HANDLERS`, the
conversation engine `respond` together with the message log, the websocket
`ConnectionManager` registry, and the inbound-frame decoding performed by the
websocket endpoint.  Machine-level side effects (the sqlite connection, the
actual socket) are modelled as explicit state: the message log is a list of
rows passed in and returned, the registry is an association list mirroring the
Python dict, and each `datetime.utcnow()` call site receives its timestamp as
a parameter.
-/

set_option autoImplicit false

/-- ASCII model of Python `str.lower`: lowercase the letters A-Z. -/
def pyLower (s : String) : String :=
  String.mk (s.data.map Char.toLower)

/-- Characters stripped by Python `str.strip()` (ASCII whitespace). -/
def pyIsSpace (c : Char) : Bool :=
  c = ' ' || c = '\t' || c = '\n' || c = '\x0d' || c = '\x0b' || c = '\x0c'

/-- Model of Python `str.strip()`: drop leading and trailing whitespace. -/
def pyStrip (s : String) : String :=
  String.mk (((s.data.dropWhile pyIsSpace).reverse.dropWhile pyIsSpace).reverse)

/-- Regex word character `\w` (ASCII model): letter, digit or underscore. -/
def isWordChar (c : Char) : Bool :=
  c.isAlpha || c.isDigit || c = '_'

/-- A `\b` word boundary holds between two adjacent positions (where `none`
stands for the edge of the string) iff exactly one side is a word character. -/
def isBoundary (a b : Option Char) : Bool :=
  (match a with | none => false | some c => isWordChar c)
    ≠ (match b with | none => false | some c => isWordChar c)

/-- Does `pat` occur literally at the head of `cs`? -/
def matchHere : List Char → List Char → Bool
  | [], _ => true
  | _ :: _, [] => false
  | p :: ps, c :: cs => p = c && matchHere ps cs

/-- Search for a literal occurrence of `pat` in `cs` flanked by `\b` word
boundaries, where `prev` is the character just before `cs` (none at the start
of the string).  This models `re.search(r"\b(pat)\b", ...)` for one literal
alternative `pat`. -/
def wbSearch (pat : List Char) : Option Char → List Char → Bool
  | prev, [] =>
      matchHere pat [] && isBoundary prev pat.head?
        && isBoundary pat.getLast? none
  | prev, c :: rest =>
      (matchHere pat (c :: rest) && isBoundary prev pat.head?
        && isBoundary pat.getLast? ((List.drop pat.length (c :: rest)).head?))
      || wbSearch pat (some c) rest

/-- Model of `re.search(r"\b(a1|a2|...)\b", t)` for literal alternatives:
true iff some alternative occurs in `t` flanked by word boundaries. -/
def reSearchWb (alts : List String) (t : String) : Bool :=
  alts.any (fun a => wbSearch a.data none t.data)

/-- Classification result: the dict `{"intent": ..., "confidence": ...}`
returned by `detect_intent`.  Confidence is modelled as a rational. -/
structure Intent where
  intent : String
  confidence : ℚ
deriving DecidableEq, Repr

/-- Embedding of `detect_intent` from app.py: lowercase and strip the input,
then test the six word-boundary rule patterns in source order, returning the
first hit, or the fallback intent when none matches.  The character class
`top[- ]up` is expanded into its two literal alternatives. -/
def detect_intent (text : String) : Intent :=
  let t := pyStrip (pyLower text)
  if reSearchWb ["signal", "network", "no service", "coverage", "latency",
      "slow data", "dropped call"] t then ⟨"network_issue", 0.9⟩
  else if reSearchWb ["balance", "plan", "data left", "recharge", "top-up",
      "top up", "bill"] t then ⟨"account_query", 0.9⟩
  else if reSearchWb ["symptom", "fever", "cough", "pain", "headache",
      "nausea", "shortness of breath"] t then ⟨"symptom_check", 0.9⟩
  else if reSearchWb ["appointment", "book appointment", "doctor", "visit",
      "schedule"] t then ⟨"book_appointment", 0.9⟩
  else if reSearchWb ["hi", "hello", "hey", "good morning", "good evening"] t
    then ⟨"greeting", 0.95⟩
  else if reSearchWb ["thank", "thanks"] t then ⟨"thanks", 0.95⟩
  else ⟨"fallback", 0.5⟩

/-- The per-call context bag (Python dict with no reserved keys). -/
abbrev Ctx := List (String × String)

/-- Embedding of `handle_network_issue`. -/
def handle_network_issue (text : String) (_context : Ctx) : String :=
  if reSearchWb ["no service", "no signal", "no network"] (pyLower text) then
    "I understand you\x27re seeing no network signal. Try: 1) toggle airplane mode off/on, 2) restart your device, 3) check for network outages in your area. If the problem persists, reply with your area PIN or \x27outage\x27 to check further."
  else if reSearchWb ["slow", "latency", "slow data"] (pyLower text) then
    "Slow data can be caused by congestion. Try switching between 4G/3G, closing background apps, or running a speed test. Want me to run a quick diagnostic?"
  else
    "Can you describe the network problem (e.g., no signal, slow data, dropped calls)?"

/-- Embedding of `handle_account_query` (fixed mock balance). -/
def handle_account_query (_text : String) (_context : Ctx) : String :=
  "Your current prepaid balance is ₹199.50. Would you like to recharge now?"

/-- Embedding of `handle_symptom_check`. -/
def handle_symptom_check (text : String) (_context : Ctx) : String :=
  if reSearchWb ["fever", "temperature"] (pyLower text) then
    "I see you mentioned fever. If temperature > 38°C or you have breathing difficulty, seek urgent care. For mild fever, rest, fluids and paracetamol are common. Do you have other symptoms?"
  else if reSearchWb ["chest pain", "shortness of breath", "severe", "faint"]
      (pyLower text) then
    "These symptoms can be serious. If you are in immediate danger, please call emergency services now."
  else
    "Tell me more about your symptoms (how long, severity). I can help suggest next steps or book a tele-appointment."

/-- Embedding of `handle_book_appointment`. -/
def handle_book_appointment (_text : String) (_context : Ctx) : String :=
  "I can help book an appointment. Which date/time and specialty do you prefer? Example: \x27GP tomorrow morning\x27 or \x27Dermatology Nov 6 3pm\x27."

/-- Embedding of `handle_greeting`. -/
def handle_greeting (_text : String) (_context : Ctx) : String :=
  "Hello! I can help with mobile network support, account queries, or basic health triage. How can I help today?"

/-- Embedding of `handle_thanks`. -/
def handle_thanks (_text : String) (_context : Ctx) : String :=
  "You\x27re welcome — anything else I can help with?"

/-- Embedding of `handle_fallback`. -/
def handle_fallback (_text : String) (_context : Ctx) : String :=
  "Sorry, I didn\x27t quite get that. Could you rephrase? You can ask about \x27network issue\x27, \x27check my balance\x27, or \x27I have a fever\x27."

/-- Python dict assignment `d[k] = v` on a string-keyed dict modelled as an
association list in insertion order: replace the value of an existing key in
place, otherwise append the new entry. -/
def dictSet {β : Type} (d : List (String × β)) (k : String) (v : β) :
    List (String × β) :=
  match d with
  | [] => [(k, v)]
  | (k', v') :: rest =>
      if k' = k then (k, v) :: rest else (k', v') :: dictSet rest k v

/-- Python `d.pop(k, None)`: remove the entry for `k` if present. -/
def dictPop {β : Type} (d : List (String × β)) (k : String) :
    List (String × β) :=
  match d with
  | [] => []
  | (k', v') :: rest =>
      if k' = k then rest else (k', v') :: dictPop rest k

/-- Python `d.get(k)` / `d.get(k, default)` lookup: the value stored for `k`,
if any. -/
def dictGet {β : Type} (d : List (String × β)) (k : String) : Option β :=
  match d with
  | [] => none
  | (k', v') :: rest => if k' = k then some v' else dictGet rest k

/-- Embedding of the `INTENT_HANDLERS` dict literal, in source order. -/
def INTENT_HANDLERS : List (String × (String → Ctx → String)) :=
  [("network_issue", handle_network_issue),
   ("account_query", handle_account_query),
   ("symptom_check", handle_symptom_check),
   ("book_appointment", handle_book_appointment),
   ("greeting", handle_greeting),
   ("thanks", handle_thanks),
   ("fallback", handle_fallback)]

/-- Model of `INTENT_HANDLERS.get(label, handle_fallback)` followed by the
handler call, i.e. the dispatch step inlined in `respond`. -/
def dispatch (label : String) (text : String) (context : Ctx) : String :=
  (match dictGet INTENT_HANDLERS label with
   | some h => h
   | none => handle_fallback) text context

/-- One row of the `messages` table written by `log_message`. -/
structure Row where
  session_id : String
  role : String
  message : String
  timestamp : String
deriving DecidableEq, Repr

/-- Embedding of `log_message`: append one row to the messages table.
The `datetime.utcnow().isoformat()` value is the `ts` parameter. -/
def log_message (log : List Row) (session_id role message ts : String) :
    List Row :=
  log ++ [⟨session_id, role, message, ts⟩]

/-- The dict returned by `respond`. -/
structure Envelope where
  reply : String
  intent : Intent
  timestamp : String
deriving DecidableEq, Repr

/-- Embedding of `respond`: default the context, log the user turn, classify,
dispatch, log the bot turn, return the envelope.  `t1`, `t2`, `t3` are the
values of the three `datetime.utcnow()` calls, in execution order. -/
def respond (message : String) (session_id : String) (context : Option Ctx)
    (log : List Row) (t1 t2 t3 : String) : List Row × Envelope :=
  let ctx := context.getD []
  let log1 := log_message log session_id "user" message t1
  let intent := detect_intent message
  let reply := dispatch intent.intent message ctx
  let log2 := log_message log1 session_id "bot" reply t2
  (log2, ⟨reply, intent, t3⟩)

/-- Opaque websocket connection handle (identity only matters). -/
abbrev Handle := Nat

/-- The `active_connections` dict of `ConnectionManager`, modelled as an
association list in insertion order. -/
abbrev Registry := List (String × Handle)

/-- Embedding of `ConnectionManager.connect` (the `websocket.accept()`
handshake is a transport effect with no registry state). -/
def ConnectionManager.connect (st : Registry) (websocket : Handle)
    (session_id : String) : Registry :=
  dictSet st session_id websocket

/-- Embedding of `ConnectionManager.disconnect`. -/
def ConnectionManager.disconnect (st : Registry) (session_id : String) :
    Registry :=
  dictPop st session_id

/-- Outcome of one `send_personal_message` call: `sent` records the
`ws.send_text(message)` invocation performed, if any, and `retval` is the
value the method returns — the Python body has no `return` statement, so the
value is `None`, modelled as `none`; a returned boolean would be `some b`. -/
structure SendResult where
  sent : Option (Handle × String)
  retval : Option Bool
deriving DecidableEq, Repr

/-- Embedding of `ConnectionManager.send_personal_message`: look the session
up; if a handle is registered, send the text to it; in all cases fall off the
end of the body, returning `None`. -/
def ConnectionManager.send_personal_message (st : Registry) (message : String)
    (session_id : String) : SendResult :=
  match dictGet st session_id with
  | some ws => ⟨some (ws, message), none⟩
  | none => ⟨none, none⟩

/-- One registry operation, for stating registry invariants over arbitrary
operation sequences. -/
inductive RegOp where
  | connect (websocket : Handle) (session_id : String)
  | disconnect (session_id : String)
  | send (message : String) (session_id : String)
deriving DecidableEq, Repr

/-- The registry state after one operation: `send_personal_message` reads but
never mutates the registry. -/
def applyOp (st : Registry) : RegOp → Registry
  | .connect ws sid => ConnectionManager.connect st ws sid
  | .disconnect sid => ConnectionManager.disconnect st sid
  | .send _ _ => st

/-- The registry state after a sequence of operations. -/
def runOps (st : Registry) (ops : List RegOp) : Registry :=
  ops.foldl applyOp st

/-- The keys of a registry state. -/
def regKeys (d : Registry) : List String :=
  d.map Prod.fst

/-- The number of entries a registry state holds for a given session id. -/
def countKey (d : Registry) (k : String) : Nat :=
  (regKeys d).count k

/-- JSON values, as produced by `json.loads`. -/
inductive Json where
  | null
  | bool (b : Bool)
  | num (n : Int)
  | str (s : String)
  | arr (xs : List Json)
  | obj (kvs : List (String × Json))

/-- Skip JSON insignificant whitespace. -/
def skipWs : List Char → List Char
  | [] => []
  | c :: cs =>
      if c = ' ' || c = '\t' || c = '\n' || c = '\x0d' then skipWs cs
      else c :: cs

/-- Parse the remainder of a JSON string literal (after the opening quote),
accumulating decoded characters in reverse; `\u` escapes are not modelled. -/
def parseStringAux : List Char → List Char → Option (String × List Char)
  | _, [] => none
  | acc, c :: cs =>
      if c = '"' then some (String.mk acc.reverse, cs)
      else if c = '\\' then
        match cs with
        | [] => none
        | e :: cs' =>
            if e = '"' then parseStringAux ('"' :: acc) cs'
            else if e = '\\' then parseStringAux ('\\' :: acc) cs'
            else if e = '/' then parseStringAux ('/' :: acc) cs'
            else if e = 'n' then parseStringAux ('\n' :: acc) cs'
            else if e = 't' then parseStringAux ('\t' :: acc) cs'
            else if e = 'r' then parseStringAux ('\x0d' :: acc) cs'
            else if e = 'b' then parseStringAux ('\x08' :: acc) cs'
            else if e = 'f' then parseStringAux ('\x0c' :: acc) cs'
            else none
      else parseStringAux (c :: acc) cs

/-- Decimal digits to a natural number. -/
def digitsToNat (ds : List Char) : Nat :=
  ds.foldl (fun n c => n * 10 + (c.toNat - 48)) 0

/-- Parse a JSON integer literal at the head of the input (fractions and
exponents are not modelled: such frames take the raw-text fallback path). -/
def parseNumAt (cs : List Char) : Option (Json × List Char) :=
  let p := match cs with
    | '-' :: rest => (true, rest)
    | _ => (false, cs)
  let ds := p.2.takeWhile Char.isDigit
  let rest := p.2.dropWhile Char.isDigit
  if ds.isEmpty then none
  else
    let n : Int := if p.1 then -(digitsToNat ds : Int) else (digitsToNat ds : Int)
    match rest with
    | c :: _ => if c = '.' || c = 'e' || c = 'E' then none
                else some (Json.num n, rest)
    | [] => some (Json.num n, [])

mutual

/-- Fuel-indexed recursive-descent parser for one JSON value; returns the
value and the unconsumed input. -/
def parseValue : Nat → List Char → Option (Json × List Char)
  | 0, _ => none
  | fuel + 1, cs =>
      match skipWs cs with
      | [] => none
      | c :: rest =>
          if c = 'n' then
            match rest with
            | 'u' :: 'l' :: 'l' :: rest' => some (Json.null, rest')
            | _ => none
          else if c = 't' then
            match rest with
            | 'r' :: 'u' :: 'e' :: rest' => some (Json.bool true, rest')
            | _ => none
          else if c = 'f' then
            match rest with
            | 'a' :: 'l' :: 's' :: 'e' :: rest' => some (Json.bool false, rest')
            | _ => none
          else if c = '"' then
            match parseStringAux [] rest with
            | some (s, rest') => some (Json.str s, rest')
            | none => none
          else if c = '[' then
            match skipWs rest with
            | ']' :: rest' => some (Json.arr [], rest')
            | rest' => parseElems fuel rest' []
          else if c = '\x7b' then
            match skipWs rest with
            | '\x7d' :: rest' => some (Json.obj [], rest')
            | rest' => parseMembers fuel rest' []
          else parseNumAt (c :: rest)

/-- Parse the elements of a nonempty JSON array, accumulating in reverse. -/
def parseElems : Nat → List Char → List Json → Option (Json × List Char)
  | 0, _, _ => none
  | fuel + 1, cs, acc =>
      match parseValue fuel cs with
      | none => none
      | some (v, rest) =>
          match skipWs rest with
          | ',' :: rest' => parseElems fuel rest' (v :: acc)
          | ']' :: rest' => some (Json.arr (v :: acc).reverse, rest')
          | _ => none

/-- Parse the members of a nonempty JSON object, accumulating in reverse. -/
def parseMembers : Nat → List Char → List (String × Json) →
    Option (Json × List Char)
  | 0, _, _ => none
  | fuel + 1, cs, acc =>
      match skipWs cs with
      | '"' :: rest =>
          match parseStringAux [] rest with
          | none => none
          | some (k, rest1) =>
              match skipWs rest1 with
              | ':' :: rest2 =>
                  match parseValue fuel rest2 with
                  | none => none
                  | some (v, rest3) =>
                      match skipWs rest3 with
                      | ',' :: rest4 => parseMembers fuel rest4 ((k, v) :: acc)
                      | '\x7d' :: rest4 =>
                          some (Json.obj ((k, v) :: acc).reverse, rest4)
                      | _ => none
              | _ => none
      | _ => none

end

/-- Model of `json.loads`: parse one JSON document; trailing content other
than whitespace is an error (`none`). -/
def json_loads (s : String) : Option Json :=
  match parseValue (s.length + 1) s.data with
  | some (v, rest) => if (skipWs rest).isEmpty then some v else none
  | none => none

/-- Lookup in a parsed JSON object, matching Python dict construction from
possibly duplicated keys: the last binding wins. -/
def objGet (kvs : List (String × Json)) (k : String) : Option Json :=
  kvs.foldl (fun acc p => if p.1 = k then some p.2 else acc) none

/-- The message value the websocket endpoint feeds to `respond` for one
inbound frame `data`: try `json.loads(data)` then `payload.get("message", "")`;
any exception on that pair of lines (parse failure, or a parsed value that is
not an object and so has no `.get`) is caught and the raw frame text is used.
A string value `Json.str s` means the Python value `s`; other `Json` values
model the non-string values `payload.get` can produce. -/
def frameMessage (data : String) : Json :=
  match json_loads data with
  | some (Json.obj kvs) => (objGet kvs "message").getD (Json.str "")
  | _ => Json.str data


/-- One classifier rule, as the spec describes the matching policy: a
word-boundary pattern (list of literal alternatives), a label, and a fixed
confidence. -/
structure Rule where
  pattern : List String
  label : String
  confidence : ℚ

/-- The classifier's rule list in source order, for the spec-side matcher. -/
def RULES : List Rule :=
  [⟨["signal", "network", "no service", "coverage", "latency", "slow data",
      "dropped call"], "network_issue", 0.9⟩,
   ⟨["balance", "plan", "data left", "recharge", "top-up", "top up", "bill"],
      "account_query", 0.9⟩,
   ⟨["symptom", "fever", "cough", "pain", "headache", "nausea",
      "shortness of breath"], "symptom_check", 0.9⟩,
   ⟨["appointment", "book appointment", "doctor", "visit", "schedule"],
      "book_appointment", 0.9⟩,
   ⟨["hi", "hello", "hey", "good morning", "good evening"], "greeting", 0.95⟩,
   ⟨["thank", "thanks"], "thanks", 0.95⟩]

/-- Spec-side matcher, following the words of the specification: evaluate the
ordered rule list case-insensitively against the whitespace-trimmed input and
return the first rule whose word-boundary pattern matches, with that rule's
fixed confidence; if no rule matches, return the fallback intent with
confidence 0.5.  To be compared with `detect_intent`. -/
def classifySpec (text : String) : Intent :=
  let t := pyStrip (pyLower text)
  match RULES.find? (fun r => reSearchWb r.pattern t) with
  | some r => ⟨r.label, r.confidence⟩
  | none => ⟨"fallback", 0.5⟩


/-! ### Registry lemmas -/

lemma regKeys_dictSet (d : Registry) (k : String) (v : Handle) :
    regKeys (dictSet d k v)
      = if k ∈ regKeys d then regKeys d else regKeys d ++ [k] := by
  induction d with
  | nil => simp [dictSet, regKeys]
  | cons p rest ih =>
      obtain ⟨k', v'⟩ := p
      by_cases h : k' = k
      · subst h
        simp [dictSet, regKeys]
      · have hk : ¬ k = k' := fun e => h e.symm
        simp only [dictSet, if_neg h, regKeys, List.map_cons, List.mem_cons,
          hk, false_or] at ih ⊢
        by_cases hm : k ∈ List.map Prod.fst rest
        · simp [hm, ih, regKeys]
        · simp [hm, ih, regKeys]

lemma nodup_regKeys_dictSet {d : Registry} (k : String) (v : Handle)
    (h : (regKeys d).Nodup) : (regKeys (dictSet d k v)).Nodup := by
  rw [regKeys_dictSet]
  split_ifs with hm
  · exact h
  · simp [List.nodup_append, h, hm]

lemma dictPop_sublist (d : Registry) (k : String) : (dictPop d k).Sublist d := by
  induction d with
  | nil => simp [dictPop]
  | cons p rest ih =>
      obtain ⟨k', v'⟩ := p
      by_cases h : k' = k
      · simp only [dictPop, if_pos h]
        exact (List.Sublist.refl rest).cons _
      · simp only [dictPop, if_neg h]
        exact ih.cons₂ _

lemma nodup_regKeys_dictPop {d : Registry} (k : String)
    (h : (regKeys d).Nodup) : (regKeys (dictPop d k)).Nodup :=
  h.sublist ((dictPop_sublist d k).map Prod.fst)

lemma dictGet_dictSet_self (d : Registry) (k : String) (v : Handle) :
    dictGet (dictSet d k v) k = some v := by
  induction d with
  | nil => simp [dictSet, dictGet]
  | cons p rest ih =>
      obtain ⟨k', v'⟩ := p
      by_cases h : k' = k <;> simp [dictSet, dictGet, h, ih]

lemma countKey_dictSet_self {d : Registry} (k : String) (v : Handle)
    (h : (regKeys d).Nodup) : countKey (dictSet d k v) k = 1 := by
  unfold countKey
  rw [regKeys_dictSet]
  split_ifs with hm
  · exact List.count_eq_one_of_mem h hm
  · rw [List.count_append, List.count_eq_zero.mpr hm]
    simp

lemma countKey_dictPop_self (d : Registry) (k : String) :
    countKey (dictPop d k) k = countKey d k - 1 := by
  induction d with
  | nil => rfl
  | cons p rest ih =>
      obtain ⟨k', v'⟩ := p
      by_cases h : k' = k
      · subst h
        simp [dictPop, countKey, regKeys]
      · have hk : k ≠ k' := fun x => h x.symm
        simp only [dictPop, if_neg h, countKey, regKeys, List.map_cons,
          List.count_cons_of_ne hk] at ih ⊢
        exact ih

lemma not_mem_regKeys_dictPop {d : Registry} {k : String}
    (h : (regKeys d).Nodup) : k ∉ regKeys (dictPop d k) := by
  induction d with
  | nil => simp [dictPop, regKeys]
  | cons p rest ih =>
      obtain ⟨k', v'⟩ := p
      simp only [regKeys, List.map_cons, List.nodup_cons] at h
      by_cases e : k' = k
      · subst e
        simpa [dictPop, regKeys] using h.1
      · have hk : ¬ k = k' := fun x => e x.symm
        simp only [dictPop, if_neg e, regKeys, List.map_cons, List.mem_cons]
        exact fun hc => hc.elim hk (ih h.2)

lemma dictPop_of_not_mem {d : Registry} {k : String}
    (h : k ∉ regKeys d) : dictPop d k = d := by
  induction d with
  | nil => rfl
  | cons p rest ih =>
      obtain ⟨k', v'⟩ := p
      simp only [regKeys, List.map_cons, List.mem_cons, not_or] at h
      have e : ¬ k' = k := fun x => h.1 x.symm
      simp [dictPop, e, ih h.2]

lemma nodup_regKeys_applyOp {st : Registry} (op : RegOp)
    (h : (regKeys st).Nodup) : (regKeys (applyOp st op)).Nodup := by
  cases op with
  | connect ws sid => exact nodup_regKeys_dictSet sid ws h
  | disconnect sid => exact nodup_regKeys_dictPop sid h
  | send m sid => exact h

lemma nodup_regKeys_runOps {st : Registry} (ops : List RegOp)
    (h : (regKeys st).Nodup) : (regKeys (runOps st ops)).Nodup := by
  induction ops generalizing st with
  | nil => exact h
  | cons op rest ih => exact ih (nodup_regKeys_applyOp op h)

/-! ### Claim theorems: Session Registry -/

/-- C4: starting from any registry state whose keys are distinct (every state
a Python dict can be in), every sequence of connect/disconnect/send
operations preserves at-most-one-entry-per-session-id; two sequential
connects with the same id leave exactly one handle for that id, namely the
second one, and a subsequent disconnect removes it entirely. -/
theorem registry_at_most_one_handle (st : Registry) (sid : String)
    (h1 h2 : Handle) (ops : List RegOp) (hnd : (regKeys st).Nodup) :
    (∀ k, countKey (runOps st ops) k ≤ 1)
    ∧ dictGet
        (ConnectionManager.connect (ConnectionManager.connect st h1 sid) h2 sid)
        sid = some h2
    ∧ countKey
        (ConnectionManager.connect (ConnectionManager.connect st h1 sid) h2 sid)
        sid = 1
    ∧ countKey
        (ConnectionManager.disconnect
          (ConnectionManager.connect (ConnectionManager.connect st h1 sid) h2 sid)
          sid)
        sid = 0 := by
  have hset1 : (regKeys (dictSet st sid h1)).Nodup := nodup_regKeys_dictSet sid h1 hnd
  refine ⟨fun k => ?_, dictGet_dictSet_self _ sid h2, countKey_dictSet_self sid h2 hset1, ?_⟩
  · exact List.nodup_iff_count_le_one.mp (nodup_regKeys_runOps ops hnd) k
  · show countKey (dictPop (dictSet (dictSet st sid h1) sid h2) sid) sid = 0
    rw [countKey_dictPop_self, countKey_dictSet_self sid h2 hset1]

/-- Witness for C4 at a concrete state and operation sequence. -/
theorem registry_at_most_one_handle_witness :
    countKey (runOps [] [RegOp.connect 7 "s1", RegOp.send "x" "s1",
        RegOp.disconnect "s1"]) "s1" ≤ 1
    ∧ dictGet (ConnectionManager.connect
        (ConnectionManager.connect [] 1 "s1") 2 "s1") "s1" = some 2
    ∧ countKey (ConnectionManager.connect
        (ConnectionManager.connect [] 1 "s1") 2 "s1") "s1" = 1
    ∧ countKey (ConnectionManager.disconnect (ConnectionManager.connect
        (ConnectionManager.connect [] 1 "s1") 2 "s1") "s1") "s1" = 0 :=
  ⟨(registry_at_most_one_handle [] "s1" 1 2 [RegOp.connect 7 "s1",
      RegOp.send "x" "s1", RegOp.disconnect "s1"] (by simp [regKeys])).1 "s1",
   (registry_at_most_one_handle [] "s1" 1 2 [] (by simp [regKeys])).2.1,
   (registry_at_most_one_handle [] "s1" 1 2 [] (by simp [regKeys])).2.2.1,
   (registry_at_most_one_handle [] "s1" 1 2 [] (by simp [regKeys])).2.2.2⟩

/-- C8: `disconnect` is idempotent — on a registry state with distinct keys,
disconnecting the same id twice equals disconnecting it once, and
disconnecting an id that is not registered leaves the state unchanged (and
neither call can fail, as `disconnect` is a total function). -/
theorem disconnect_idempotent (st : Registry) (sid : String) :
    ((regKeys st).Nodup →
      ConnectionManager.disconnect (ConnectionManager.disconnect st sid) sid
        = ConnectionManager.disconnect st sid)
    ∧ (sid ∉ regKeys st → ConnectionManager.disconnect st sid = st) := by
  constructor
  · intro h
    exact dictPop_of_not_mem (not_mem_regKeys_dictPop h)
  · intro h
    exact dictPop_of_not_mem h

/-- Witness for C8 at a concrete state. -/
theorem disconnect_idempotent_witness :
    ConnectionManager.disconnect
        (ConnectionManager.disconnect [("a", 5)] "b") "b"
      = ConnectionManager.disconnect [("a", 5)] "b"
    ∧ ConnectionManager.disconnect [("a", 5)] "b" = [("a", 5)] :=
  ⟨(disconnect_idempotent [("a", 5)] "b").1 (by decide),
   (disconnect_idempotent [("a", 5)] "b").2 (by decide)⟩

/-- C2, counterexample: with the handle `0` registered for session `"s1"`,
`send_personal_message` does attempt the send but returns `None`, not the
boolean `true` the claim requires. -/
theorem send_counterexample :
    (ConnectionManager.send_personal_message [("s1", 0)] "ping" "s1").retval
      ≠ some true
    ∧ (ConnectionManager.send_personal_message [("s1", 0)] "ping" "s1").sent
      = some (0, "ping")
    ∧ (ConnectionManager.send_personal_message [("s1", 0)] "ping" "s1").retval
      = none := by
  decide

/-- C2, amended: `send_personal_message` delivers the payload to the
registered handle exactly when one is registered for the session id, is a
silent no-op for an absent session, never fails (it is a total function),
and always returns `None` rather than a boolean. -/
theorem send_exactly_when_registered (st : Registry) (sid payload : String) :
    (ConnectionManager.send_personal_message st payload sid).retval = none
    ∧ (ConnectionManager.send_personal_message st payload sid).sent
        = (dictGet st sid).map (fun ws => (ws, payload)) := by
  unfold ConnectionManager.send_personal_message
  cases h : dictGet st sid <;> simp

/-! ### Classifier lemmas -/

lemma detect_intent_cases (s : String) :
    detect_intent s = ⟨"network_issue", 0.9⟩
    ∨ detect_intent s = ⟨"account_query", 0.9⟩
    ∨ detect_intent s = ⟨"symptom_check", 0.9⟩
    ∨ detect_intent s = ⟨"book_appointment", 0.9⟩
    ∨ detect_intent s = ⟨"greeting", 0.95⟩
    ∨ detect_intent s = ⟨"thanks", 0.95⟩
    ∨ detect_intent s = ⟨"fallback", 0.5⟩ := by
  simp only [detect_intent]
  split_ifs <;> simp

/-- C5: for every input string, `detect_intent` returns exactly one intent,
whose label is one of the six rule labels or `fallback`, whose confidence
lies in `[0, 1]`, and equal inputs give equal outputs (the function is a
pure total Lean function, so it cannot raise). -/
theorem detect_intent_total (s : String) :
    ((detect_intent s).intent ∈ (["network_issue", "account_query",
        "symptom_check", "book_appointment", "greeting", "thanks"] :
          List String)
      ∨ (detect_intent s).intent = "fallback")
    ∧ 0 ≤ (detect_intent s).confidence
    ∧ (detect_intent s).confidence ≤ 1
    ∧ (∀ t, s = t → detect_intent s = detect_intent t) := by
  refine ⟨?_, ?_, ?_, fun t ht => congrArg detect_intent ht⟩ <;>
    rcases detect_intent_cases s with h | h | h | h | h | h | h <;>
      rw [h] <;> first | decide | norm_num

/-- Witness for C5 (its determinism clause carries a hypothesis): the claim
instantiated at the concrete input "hi". -/
theorem detect_intent_total_witness :
    ((detect_intent "hi").intent ∈ (["network_issue", "account_query",
        "symptom_check", "book_appointment", "greeting", "thanks"] :
          List String)
      ∨ (detect_intent "hi").intent = "fallback")
    ∧ 0 ≤ (detect_intent "hi").confidence
    ∧ (detect_intent "hi").confidence ≤ 1
    ∧ detect_intent "hi" = detect_intent "hi" :=
  ⟨(detect_intent_total "hi").1, (detect_intent_total "hi").2.1,
   (detect_intent_total "hi").2.2.1, (detect_intent_total "hi").2.2.2 "hi" rfl⟩

/-- C6: `detect_intent` coincides with the spec-side first-match evaluation
of the ordered rule list over the lowercased, whitespace-trimmed input, and
on the unmatched input "xyz nonsense qqq" it returns the fallback intent with
confidence 0.5. -/
theorem detect_intent_first_match :
    (∀ s, detect_intent s = classifySpec s)
    ∧ detect_intent "xyz nonsense qqq" = ⟨"fallback", 0.5⟩ := by
  constructor
  · intro s
    simp only [detect_intent, classifySpec, RULES, List.find?]
    split_ifs <;> simp_all
  · rfl

/-- C9: the label `detect_intent` returns is always a key of
`INTENT_HANDLERS`, so the handler lookup in `respond` always succeeds and
its `handle_fallback` default branch is unreachable: the dispatched handler
is the one registered for the label. -/
theorem detect_intent_label_registered (s : String) :
    ∃ h, dictGet INTENT_HANDLERS (detect_intent s).intent = some h
      ∧ ∀ text context, dispatch (detect_intent s).intent text context
          = h text context := by
  rcases detect_intent_cases s with hc | hc | hc | hc | hc | hc | hc <;>
    rw [hc] <;> exact ⟨_, rfl, fun text context => rfl⟩

/-! ### Dispatcher lemmas -/

lemma handle_network_issue_ne_empty (t : String) (c : Ctx) :
    handle_network_issue t c ≠ "" := by
  unfold handle_network_issue
  split_ifs <;> decide

lemma handle_account_query_ne_empty (t : String) (c : Ctx) :
    handle_account_query t c ≠ "" := by
  unfold handle_account_query
  decide

lemma handle_symptom_check_ne_empty (t : String) (c : Ctx) :
    handle_symptom_check t c ≠ "" := by
  unfold handle_symptom_check
  split_ifs <;> decide

lemma handle_book_appointment_ne_empty (t : String) (c : Ctx) :
    handle_book_appointment t c ≠ "" := by
  unfold handle_book_appointment
  decide

lemma handle_greeting_ne_empty (t : String) (c : Ctx) :
    handle_greeting t c ≠ "" := by
  unfold handle_greeting
  decide

lemma handle_thanks_ne_empty (t : String) (c : Ctx) :
    handle_thanks t c ≠ "" := by
  unfold handle_thanks
  decide

lemma handle_fallback_ne_empty (t : String) (c : Ctx) :
    handle_fallback t c ≠ "" := by
  unfold handle_fallback
  decide

lemma dispatch_ne_empty (label text : String) (context : Ctx) :
    dispatch label text context ≠ "" := by
  unfold dispatch
  simp only [INTENT_HANDLERS, dictGet]
  split_ifs <;> first
    | exact handle_network_issue_ne_empty text context
    | exact handle_account_query_ne_empty text context
    | exact handle_symptom_check_ne_empty text context
    | exact handle_book_appointment_ne_empty text context
    | exact handle_greeting_ne_empty text context
    | exact handle_thanks_ne_empty text context
    | exact handle_fallback_ne_empty text context

lemma dispatch_context_irrelevant (label text : String) (c1 c2 : Ctx) :
    dispatch label text c1 = dispatch label text c2 := by
  unfold dispatch
  simp only [INTENT_HANDLERS, dictGet]
  split_ifs <;> rfl

/-! ### Claim theorems: Dispatcher and Conversation Engine -/

/-- C7: for every intent label (registered or not), message text and context,
`dispatch` returns a non-empty reply and never fails (it is a total
function); a label with no entry in `INTENT_HANDLERS` is served by the
`handle_fallback` handler. -/
theorem dispatch_total (label text : String) (context : Ctx) :
    dispatch label text context ≠ ""
    ∧ (dictGet INTENT_HANDLERS label = none →
        dispatch label text context = handle_fallback text context) := by
  refine ⟨dispatch_ne_empty label text context, fun h => ?_⟩
  unfold dispatch
  rw [h]

/-- Witness for C7 at a label absent from the handler table. -/
theorem dispatch_total_witness :
    dispatch "unknown_label" "hi" [] ≠ ""
    ∧ dispatch "unknown_label" "hi" [] = handle_fallback "hi" [] :=
  ⟨(dispatch_total "unknown_label" "hi" []).1,
   (dispatch_total "unknown_label" "hi" []).2 rfl⟩

/-- C1: a `respond` call appends exactly two rows to the message log for its
session — first the `user` row carrying the input message with the first
timestamp, then the `bot` row whose text is the returned reply — and the
returned envelope carries that reply, the classified intent and the third
timestamp. -/
theorem respond_logs_two_rows (message session_id : String)
    (context : Option Ctx) (log : List Row) (t1 t2 t3 : String) :
    (respond message session_id context log t1 t2 t3).1
      = log ++ [⟨session_id, "user", message, t1⟩,
          ⟨session_id, "bot",
            (respond message session_id context log t1 t2 t3).2.reply, t2⟩]
    ∧ (respond message session_id context log t1 t2 t3).2.intent
        = detect_intent message
    ∧ (respond message session_id context log t1 t2 t3).2.timestamp = t3 := by
  refine ⟨?_, rfl, rfl⟩
  simp [respond, log_message]

/-- C10: the reply and the intent produced by `respond` do not depend on the
context argument, and the omitted (`none`) context behaves exactly as the
empty map. -/
theorem respond_context_independent (message session_id : String)
    (c1 c2 : Ctx) (log : List Row) (t1 t2 t3 : String) :
    (respond message session_id (some c1) log t1 t2 t3).2.reply
      = (respond message session_id (some c2) log t1 t2 t3).2.reply
    ∧ (respond message session_id (some c1) log t1 t2 t3).2.intent
      = (respond message session_id (some c2) log t1 t2 t3).2.intent
    ∧ respond message session_id none log t1 t2 t3
      = respond message session_id (some []) log t1 t2 t3 := by
  refine ⟨?_, rfl, rfl⟩
  exact dispatch_context_irrelevant (detect_intent message).intent message c1 c2

/-- C3, counterexample: the frame `{"foo": 1}` parses as a JSON object with
no `message` field; the endpoint then feeds the empty string to the engine,
not the raw frame content the claim requires. -/
theorem frame_message_counterexample :
    json_loads "\x7b\"foo\": 1\x7d" = some (Json.obj [("foo", Json.num 1)])
    ∧ frameMessage "\x7b\"foo\": 1\x7d" = Json.str ""
    ∧ Json.str "" ≠ Json.str "\x7b\"foo\": 1\x7d" := by
  refine ⟨rfl, rfl, fun h => ?_⟩
  injection h with h2
  exact absurd h2 (by decide)

/-- C3, amended: if a frame parses as a JSON object, the engine is fed the
value of its `message` field, or the empty string when that field is absent;
if the frame is invalid JSON or parses to a non-object, the entire raw frame
content is used verbatim; the decoding is a total function, so no parse error
reaches the client. -/
theorem frame_message_extraction (data : String) :
    (∀ kvs, json_loads data = some (Json.obj kvs) →
        frameMessage data = (objGet kvs "message").getD (Json.str ""))
    ∧ ((∀ kvs, json_loads data ≠ some (Json.obj kvs)) →
        frameMessage data = Json.str data) := by
  constructor
  · intro kvs h
    unfold frameMessage
    rw [h]
  · intro h
    unfold frameMessage
    cases hj : json_loads data with
    | none => rfl
    | some v =>
        cases v with
        | obj kvs => exact absurd hj (h kvs)
        | null => rfl
        | bool b => rfl
        | num n => rfl
        | str s => rfl
        | arr xs => rfl

/-- Witness for C3 (amended) at one JSON frame and one plain-text frame. -/
theorem frame_message_extraction_witness :
    frameMessage "\x7b\"message\": \"hi\"\x7d" = Json.str "hi"
    ∧ frameMessage "plain text frame" = Json.str "plain text frame" :=
  ⟨((frame_message_extraction "\x7b\"message\": \"hi\"\x7d").1
      [("message", Json.str "hi")] rfl).trans rfl,
   (frame_message_extraction "plain text frame").2
     (fun kvs h => Option.noConfusion
       (show (none : Option Json) = some (Json.obj kvs) from h))⟩
